import Mathlib

/-!
Shallow embedding of the nearby-care search pipeline of the WoundWise
screen (`app/(tabs)/index.tsx`): geodesy helpers, the OSM geocoder and
reverse geocoder response handling, the Overpass facility search with its
normalization / ranking / truncation, and the two orchestration flows
(`runCareSearchFromCoords` and the typed-query press handler).

Numbers are modelled as real numbers; the outcome of each network fetch
(parsed JSON body, or a thrown error) is passed to the modelled function
as an explicit argument, and the list of network calls a flow issues is
returned alongside the final UI state.
-/

namespace WoundWise

/-- Tag-map access `tags[k]` on an element's tag object: the tag map is an
association list, a missing key is `none` (JS `undefined`). -/
def getTag (tags : List (String × String)) (k : String) : Option String :=
  (tags.find? fun p => p.1 == k).map Prod.snd

/-- JS `a || b` where `a` is a possibly-missing string: `undefined` and the
empty string are falsy and select `b`. -/
def jsOrStr (a : Option String) (b : String) : String :=
  match a with
  | none => b
  | some s => if s == "" then b else s

/-- `toMiles` (source line 205): divide meters by 1609.344. -/
noncomputable def toMiles (meters : ℝ) : ℝ := meters / 1609.344

/-- Degree-to-radian conversion `toRad` from `haversineMeters`. -/
noncomputable def toRad (x : ℝ) : ℝ := x * Real.pi / 180

/-- `haversineMeters` (source lines 209-218): haversine great-circle
distance with Earth radius 6 371 000 m. -/
noncomputable def haversineMeters (lat1 lon1 lat2 lon2 : ℝ) : ℝ :=
  let R : ℝ := 6371000
  let dLat := toRad (lat2 - lat1)
  let dLon := toRad (lon2 - lon1)
  let a :=
    Real.sin (dLat / 2) ^ 2 +
      Real.cos (toRad lat1) * Real.cos (toRad lat2) * Real.sin (dLon / 2) ^ 2
  2 * R * Real.arcsin (Real.sqrt a)

/-- The `center` sub-object of an Overpass element (`el.center?.lat`,
`el.center?.lon`); each coordinate may be missing. -/
structure Center where
  lat : Option ℝ
  lon : Option ℝ

/-- A raw Overpass element: `type`, `id`, optional `tags`, optional own
coordinates, optional computed `center`. A coordinate field that is absent
or not a number is `none` (the source checks `typeof ... !== "number"`). -/
structure OsmElement where
  type : String
  id : Int
  tags : List (String × String)
  lat : Option ℝ
  lon : Option ℝ
  center : Option Center

/-- The parsed Overpass response body; the `elements` field may be absent
(`json?.elements ?? []`). -/
structure OverpassJson where
  elements : Option (List OsmElement)

/-- `CareResult` (source lines 196-203). -/
structure CareResult where
  id : String
  name : String
  address : Option String
  lat : ℝ
  lon : ℝ
  distanceMiles : Option ℝ

/-- The per-element normalization inside `searchNearbyCareOSM`
(source lines 302-331): name fallback chain, representative coordinate
(own point, else center; dropped if either component is missing),
haversine distance from the origin, and the space-joined address built
from the structured `addr:*` tags with falsy parts filtered out. -/
noncomputable def normalizeElement (lat lon : ℝ) (el : OsmElement) : Option CareResult :=
  let tags := el.tags
  let name :=
    jsOrStr (getTag tags "name")
      (jsOrStr (getTag tags "name:en")
        (if getTag tags "amenity" = some "hospital" then "Hospital" else "Clinic"))
  let centerLat := el.lat <|> el.center.bind Center.lat
  let centerLon := el.lon <|> el.center.bind Center.lon
  match centerLat, centerLon with
  | some cLat, some cLon =>
    let distM := haversineMeters lat lon cLat cLon
    let addrParts :=
      ([getTag tags "addr:housenumber", getTag tags "addr:street",
        getTag tags "addr:city", getTag tags "addr:state",
        getTag tags "addr:postcode"].filterMap id).filter (fun s => s != "")
    some
      { id := el.type ++ "-" ++ toString el.id
        name := name
        address := if addrParts.isEmpty then none else some (String.intercalate " " addrParts)
        lat := cLat
        lon := cLon
        distanceMiles := some (toMiles distM) }
  | _, _ => none

/-- The sort key of the ranking comparator
`(a.distanceMiles ?? 999) - (b.distanceMiles ?? 999)`: a missing distance
compares as 999. -/
noncomputable def sortKey (r : CareResult) : ℝ := r.distanceMiles.getD 999

/-- Boolean comparison used to model the ascending numeric sort of
source line 334. -/
noncomputable def careLe (a b : CareResult) : Bool :=
  @decide (sortKey a ≤ sortKey b) (Classical.propDecidable _)

/-- `searchNearbyCareOSM` (source lines 271-336) applied to the parsed
Overpass response body: default the missing `elements` array to `[]`,
normalize each element dropping the coordinate-less ones, sort ascending
by distance (missing distance as 999), and keep the first 8. -/
noncomputable def searchNearbyCareOSM (lat lon : ℝ) (json : Option OverpassJson) :
    List CareResult :=
  let elements := (json.bind OverpassJson.elements).getD []
  let results := elements.filterMap (normalizeElement lat lon)
  (results.mergeSort careLe).take 8

/-- One raw match of the Nominatim search response, after JSON parsing
(`data[0].lat` / `data[0].lon` already read as numbers, `display_name`). -/
structure NominatimHit where
  lat : ℝ
  lon : ℝ
  display_name : String

/-- The value `geocodeOSM` returns on a match. -/
structure GeoResult where
  lat : ℝ
  lon : ℝ
  displayName : String

/-- `geocodeOSM` (source lines 239-256) applied to the parsed response
array (which may be null): `if (!data?.length) return null`, else the
first hit's coordinates and display name. -/
def geocodeOSM (data : Option (List NominatimHit)) : Option GeoResult :=
  match data with
  | none => none
  | some [] => none
  | some (h :: _) => some { lat := h.lat, lon := h.lon, displayName := h.display_name }

/-- The parsed Nominatim reverse-geocode response body; `display_name`
may be absent. -/
structure RevResponse where
  display_name : Option String

/-- `reverseGeocodeOSM` (source lines 258-269) applied to the outcome of
its fetch: a thrown error (`Except.error`), a null body, a body without a
`display_name`, or one with it. The function is total: every failure path
returns the literal "Current location" (JS `|| "Current location"` also
catches an empty display name). -/
def reverseGeocodeOSM (resp : Except Unit (Option RevResponse)) : String :=
  match resp with
  | .error _ => "Current location"
  | .ok d => jsOrStr (d.bind RevResponse.display_name) "Current location"

/-- The component state touched by the care-search flows (`originLabel`,
`careResults`, `careLoading`, `careError`). -/
structure CareState where
  originLabel : String
  careResults : List CareResult
  careLoading : Bool
  careError : String

/-- A network request issued by a flow. -/
inductive NetCall
  | nominatimSearch (q : String)
  | nominatimReverse (lat lon : ℝ)
  | overpass (lat lon : ℝ)

/-- JS `String.prototype.trim` (`locationQuery.trim()`): strip leading and
trailing whitespace. -/
def jsTrim (s : String) : String :=
  ⟨((s.data.dropWhile Char.isWhitespace).reverse.dropWhile Char.isWhitespace).reverse⟩

/-- The message set when the facility search returns no results. -/
def noResultsMsg : String := "No nearby hospitals/clinics found within ~10km."

/-- The validation message of the typed-query flow for an empty query. -/
def emptyQueryMsg : String :=
  "Type a ZIP code or address first (or tap “Use my location”)."

/-- The not-found message of the typed-query flow. -/
def notFoundMsg : String :=
  "Couldn’t find that location. Try a full address or ZIP + city."

/-- `runCareSearchFromCoords` (source lines 470-489). Its two network
fetches are modelled by the arguments `rev` (reverse-geocode outcome) and
`search` (Overpass outcome: a thrown error's optional message, or the
parsed body). Returns the final state and the calls issued. -/
noncomputable def runCareSearchFromCoords (lat lon : ℝ)
    (rev : Except Unit (Option RevResponse))
    (search : Except (Option String) (Option OverpassJson))
    (st : CareState) : CareState × List NetCall :=
  let st1 : CareState :=
    { st with careLoading := true, careError := "", careResults := [] }
  let st2 : CareState := { st1 with originLabel := reverseGeocodeOSM rev }
  let calls : List NetCall := [.nominatimReverse lat lon, .overpass lat lon]
  match search with
  | .error m =>
    ({ st2 with careError := m.getD "Care search failed. Try again.",
                careLoading := false }, calls)
  | .ok json =>
    let results := searchNearbyCareOSM lat lon json
    if results.isEmpty then
      ({ st2 with careError := noResultsMsg, careLoading := false }, calls)
    else
      ({ st2 with careResults := results, careLoading := false }, calls)

/-- The typed-query press handler (source lines 700-733): trim the query,
fail fast on empty, else geocode (`geo` is that fetch's outcome), surface
not-found when `geocodeOSM` yields null, else run the facility search
(`search` is the Overpass outcome) from the geocoded coordinate. -/
noncomputable def searchByQueryPress (locationQuery : String)
    (geo : Except (Option String) (Option (List NominatimHit)))
    (search : Except (Option String) (Option OverpassJson))
    (st : CareState) : CareState × List NetCall :=
  let q := jsTrim locationQuery
  if q = "" then
    ({ st with careError := emptyQueryMsg }, [])
  else
    let st1 : CareState :=
      { st with careLoading := true, careError := "", careResults := [], originLabel := "" }
    match geo with
    | .error m =>
      ({ st1 with careError := m.getD "Search failed. Try again.",
                  careLoading := false }, [.nominatimSearch q])
    | .ok data =>
      match geocodeOSM data with
      | none =>
        ({ st1 with careError := notFoundMsg, careLoading := false },
         [.nominatimSearch q])
      | some g =>
        let st2 : CareState := { st1 with originLabel := g.displayName }
        let calls : List NetCall := [.nominatimSearch q, .overpass g.lat g.lon]
        match search with
        | .error m =>
          ({ st2 with careError := m.getD "Search failed. Try again.",
                      careLoading := false }, calls)
        | .ok json =>
          let results := searchNearbyCareOSM g.lat g.lon json
          if results.isEmpty then
            ({ st2 with careError := noResultsMsg, careLoading := false }, calls)
          else
            ({ st2 with careResults := results, careLoading := false }, calls)

/-- The identifier `searchNearbyCareOSM` derives for an element:
`` `${el.type}-${el.id}` ``. -/
def elementId (el : OsmElement) : String := el.type ++ "-" ++ toString el.id

/-- The initial value of the care-search state (source lines 446-449). -/
def initialCareState : CareState :=
  { originLabel := "", careResults := [], careLoading := false, careError := "" }

/-- Undefined-distance entries occupy a suffix of the list: no entry with a
known distance follows one whose distance is undefined. -/
def unknownDistanceLast (l : List CareResult) : Prop :=
  List.Pairwise (fun a b => a.distanceMiles = none → b.distanceMiles = none) l

lemma careLe_trans (a b c : CareResult) (hab : careLe a b) (hbc : careLe b c) :
    careLe a c := by
  simp only [careLe, decide_eq_true_eq] at *
  exact le_trans hab hbc

lemma careLe_total (a b : CareResult) : careLe a b || careLe b a := by
  simp only [careLe, Bool.or_eq_true, decide_eq_true_eq]
  exact le_total _ _

lemma normalizeElement_fields {lat lon : ℝ} {el : OsmElement} {r : CareResult}
    (h : normalizeElement lat lon el = some r) :
    r.id = elementId el ∧ r.distanceMiles.isSome := by
  simp only [normalizeElement] at h
  split at h
  · simp only [Option.some.injEq] at h
    subst h
    simp [elementId]
  · simp at h

lemma mem_of_mem_search {lat lon : ℝ} {json : Option OverpassJson} {r : CareResult}
    (h : r ∈ searchNearbyCareOSM lat lon json) :
    ∃ el ∈ (json.bind OverpassJson.elements).getD [], normalizeElement lat lon el = some r := by
  simp only [searchNearbyCareOSM] at h
  have h1 := List.mem_mergeSort.mp (List.mem_of_mem_take h)
  exact List.mem_filterMap.mp h1

lemma searchNearbyCareOSM_nil {lat lon : ℝ} {json : Option OverpassJson}
    (h : (json.bind OverpassJson.elements).getD [] = []) :
    searchNearbyCareOSM lat lon json = [] := by
  simp [searchNearbyCareOSM, h]

/-- C9: every FacilityResult returned by searchNearbyCareOSM has a defined
distanceMiles — the distance is always computed from the coordinate that
every non-dropped element is required to have, so the unknown-distance
comparison fallback of 999 is never exercised on its own outputs. -/
theorem searchNearbyCareOSM_distance_defined (lat lon : ℝ) (json : Option OverpassJson) :
    ((searchNearbyCareOSM lat lon json).all fun r => r.distanceMiles.isSome) = true := by
  rw [List.all_eq_true]
  intro r hr
  obtain ⟨el, -, hel⟩ := mem_of_mem_search hr
  exact (normalizeElement_fields hel).2

/-- C1: for every parsed point-of-interest response, the result list of
searchNearbyCareOSM has length at most 8 and is sorted ascending by
distanceMiles with a missing distance compared as 999 (`sortKey`); an
entry with an undefined distance can only appear after every entry with a
known distance. -/
theorem searchNearbyCareOSM_ranked (lat lon : ℝ) (json : Option OverpassJson) :
    (searchNearbyCareOSM lat lon json).length ≤ 8 ∧
      List.Pairwise (fun a b => sortKey a ≤ sortKey b) (searchNearbyCareOSM lat lon json) ∧
      unknownDistanceLast (searchNearbyCareOSM lat lon json) := by
  refine ⟨?_, ?_, ?_⟩
  · simp only [searchNearbyCareOSM]
    exact List.length_take_le _ _
  · have hs := List.sorted_mergeSort careLe_trans careLe_total
      (((json.bind OverpassJson.elements).getD []).filterMap (normalizeElement lat lon))
    have hs' : List.Pairwise (fun a b => sortKey a ≤ sortKey b)
        ((((json.bind OverpassJson.elements).getD []).filterMap
          (normalizeElement lat lon)).mergeSort careLe) := by
      refine hs.imp ?_
      intro a b hab
      simpa only [careLe, decide_eq_true_eq] using hab
    exact List.Pairwise.sublist (List.take_sublist 8 _) hs'
  · refine List.pairwise_of_forall_mem_list ?_
    intro a ha b _ hnone
    obtain ⟨el, -, hel⟩ := mem_of_mem_search ha
    have := (normalizeElement_fields hel).2
    rw [hnone] at this
    simp at this

/-- C10: a point-of-interest response body that parses but lacks an
elements array (null body, or a body whose elements field is absent)
makes searchNearbyCareOSM return the empty list, and the flow then treats
it exactly as the zero-matches case (the no-results message). -/
theorem searchNearbyCareOSM_missing_elements (lat lon : ℝ) :
    searchNearbyCareOSM lat lon none = [] ∧
      searchNearbyCareOSM lat lon (some { elements := none }) = [] ∧
      ∀ (rev : Except Unit (Option RevResponse)) (st : CareState),
        (runCareSearchFromCoords lat lon rev (.ok none) st).1.careError = noResultsMsg := by
  have h1 : searchNearbyCareOSM lat lon none = [] :=
    @searchNearbyCareOSM_nil lat lon none rfl
  refine ⟨h1, @searchNearbyCareOSM_nil lat lon (some { elements := none }) rfl, ?_⟩
  intro rev st
  simp [runCareSearchFromCoords, h1]

/-- C3: a typed-query search whose query is empty after trimming sets the
validation message synchronously, changes nothing else of the state, and
issues no network call (the returned call list is empty). -/
theorem emptyQuery_no_network (locationQuery : String)
    (geo : Except (Option String) (Option (List NominatimHit)))
    (search : Except (Option String) (Option OverpassJson)) (st : CareState)
    (h : jsTrim locationQuery = "") :
    searchByQueryPress locationQuery geo search st =
      ({ st with careError := emptyQueryMsg }, []) := by
  simp [searchByQueryPress, h]

/-- Witness for C3 at the concrete query "". -/
theorem emptyQuery_no_network_witness :
    jsTrim "" = "" ∧
      searchByQueryPress "" (.ok none) (.ok none) initialCareState =
        ({ initialCareState with careError := emptyQueryMsg }, []) :=
  ⟨rfl, emptyQuery_no_network "" (.ok none) (.ok none) initialCareState rfl⟩

/-- C5: reverseGeocodeOSM is total and returns the fixed literal
"Current location" on every failure path (thrown fetch/parse error, null
body, missing display name, empty display name), and in the
device-location flow the facility-search outcome (careError, careResults,
careLoading) does not depend on the reverse-geocode outcome. -/
theorem reverseGeocode_fallback_and_no_interference :
    reverseGeocodeOSM (.error ()) = "Current location" ∧
      reverseGeocodeOSM (.ok none) = "Current location" ∧
      reverseGeocodeOSM (.ok (some { display_name := none })) = "Current location" ∧
      reverseGeocodeOSM (.ok (some { display_name := some "" })) = "Current location" ∧
      ∀ (lat lon : ℝ) (rev1 rev2 : Except Unit (Option RevResponse))
        (search : Except (Option String) (Option OverpassJson)) (st : CareState),
        (runCareSearchFromCoords lat lon rev1 search st).1.careError =
            (runCareSearchFromCoords lat lon rev2 search st).1.careError ∧
          (runCareSearchFromCoords lat lon rev1 search st).1.careResults =
            (runCareSearchFromCoords lat lon rev2 search st).1.careResults ∧
          (runCareSearchFromCoords lat lon rev1 search st).1.careLoading =
            (runCareSearchFromCoords lat lon rev2 search st).1.careLoading := by
  refine ⟨rfl, rfl, rfl, rfl, ?_⟩
  intro lat lon rev1 rev2 search st
  match search with
  | .error m => simp [runCareSearchFromCoords]
  | .ok json =>
    simp only [runCareSearchFromCoords]
    split <;> simp

/-- C2 (amended): a facility search completing with zero normalized
matches sets exactly the no-results message with an empty result list, and
that state differs from the state a throwing service call produces
whenever the thrown error's message is not the no-results literal itself. -/
theorem noResults_outcome_distinct (lat lon : ℝ) (rev : Except Unit (Option RevResponse))
    (json : Option OverpassJson) (m : Option String) (st : CareState)
    (hempty : searchNearbyCareOSM lat lon json = [])
    (hm : m.getD "Care search failed. Try again." ≠ noResultsMsg) :
    (runCareSearchFromCoords lat lon rev (.ok json) st).1.careError = noResultsMsg ∧
      (runCareSearchFromCoords lat lon rev (.ok json) st).1.careResults = [] ∧
      (runCareSearchFromCoords lat lon rev (.ok json) st).1 ≠
        (runCareSearchFromCoords lat lon rev (.error m) st).1 := by
  refine ⟨by simp [runCareSearchFromCoords, hempty], by simp [runCareSearchFromCoords, hempty], ?_⟩
  intro heq
  have := congrArg CareState.careError heq
  simp [runCareSearchFromCoords, hempty] at this
  exact hm this.symm

/-- Witness for C2's amended theorem at a concrete empty search and a
message-less throw. -/
theorem noResults_outcome_distinct_witness :
    searchNearbyCareOSM 0 0 none = [] ∧
      (none : Option String).getD "Care search failed. Try again." ≠ noResultsMsg ∧
      (runCareSearchFromCoords 0 0 (.error ()) (.ok none) initialCareState).1 ≠
        (runCareSearchFromCoords 0 0 (.error ()) (.error none) initialCareState).1 := by
  have h1 : searchNearbyCareOSM 0 0 none = [] := @searchNearbyCareOSM_nil 0 0 none rfl
  have h2 : (none : Option String).getD "Care search failed. Try again." ≠ noResultsMsg := by
    decide
  exact ⟨h1, h2, (noResults_outcome_distinct 0 0 (.error ()) none none initialCareState h1 h2).2.2⟩

/-- C2 counterexample: the claim's distinguishability fails as stated — a
service call that throws an error whose message is exactly the no-results
literal drives the flow into the very same state as a search that returned
zero matches. -/
theorem noResults_vs_error_collision :
    (runCareSearchFromCoords 0 0 (.error ()) (.ok none) initialCareState).1 =
      (runCareSearchFromCoords 0 0 (.error ()) (.error (some noResultsMsg)) initialCareState).1 := by
  have h1 : searchNearbyCareOSM 0 0 none = [] := @searchNearbyCareOSM_nil 0 0 none rfl
  simp [runCareSearchFromCoords, h1]

/-- C4: when the geocoding service returns zero matches (a null or empty
parsed array), geocodeOSM returns null; the typed-query flow then sets the
location-not-found message — a literal distinct from the generic
service-error message — leaves the results empty, and issues no facility
search: its only network call is the geocode request itself. -/
theorem geocode_zero_matches_not_found (locationQuery : String)
    (data : Option (List NominatimHit))
    (search : Except (Option String) (Option OverpassJson)) (st : CareState)
    (hdata : data.getD [] = [])
    (hq : jsTrim locationQuery ≠ "") :
    geocodeOSM data = none ∧
      searchByQueryPress locationQuery (.ok data) search st =
        ({ st with careLoading := false, careError := notFoundMsg,
                   careResults := [], originLabel := "" },
         [.nominatimSearch (jsTrim locationQuery)]) ∧
      notFoundMsg ≠ "Search failed. Try again." := by
  have hgeo : geocodeOSM data = none := by
    match data with
    | none => rfl
    | some l =>
      simp only [Option.getD] at hdata
      subst hdata
      rfl
  refine ⟨hgeo, ?_, by decide⟩
  simp [searchByQueryPress, hq, hgeo]

/-- Witness for C4 at the concrete query "z" and an empty match array. -/
theorem geocode_zero_matches_not_found_witness :
    (some ([] : List NominatimHit)).getD [] = [] ∧
      jsTrim "z" ≠ "" ∧
      geocodeOSM (some []) = none ∧
      searchByQueryPress "z" (.ok (some [])) (.ok none) initialCareState =
        ({ initialCareState with careLoading := false, careError := notFoundMsg,
                                 careResults := [], originLabel := "" },
         [.nominatimSearch (jsTrim "z")]) := by
  have h1 : (some ([] : List NominatimHit)).getD [] = [] := rfl
  have h2 : jsTrim "z" ≠ "" := by decide
  have h := geocode_zero_matches_not_found "z" (some []) (.ok none) initialCareState h1 h2
  exact ⟨h1, h2, h.1, h.2.1⟩

lemma filterMap_ids_sublist (lat lon : ℝ) :
    ∀ l : List OsmElement,
      ((l.filterMap (normalizeElement lat lon)).map CareResult.id).Sublist (l.map elementId)
  | [] => by simp
  | el :: l => by
    rcases h : normalizeElement lat lon el with _ | r
    · simpa [h] using (filterMap_ids_sublist lat lon l).cons (elementId el)
    · have hid := (normalizeElement_fields h).1
      simpa [h, hid] using (filterMap_ids_sublist lat lon l).cons₂ (elementId el)

/-- C8 (amended): every identifier in a search's result list is the
type-dash-id string `elementId` of one of the source elements, and the
result identifiers are pairwise distinct whenever the source elements'
derived identifiers are pairwise distinct (the code never deduplicates, so
a response repeating an element repeats the identifier). -/
theorem searchNearbyCareOSM_ids (lat lon : ℝ) (json : Option OverpassJson) :
    ((searchNearbyCareOSM lat lon json).all fun r =>
        (((json.bind OverpassJson.elements).getD []).map elementId).contains r.id) = true ∧
      ((((json.bind OverpassJson.elements).getD []).map elementId).Nodup →
        ((searchNearbyCareOSM lat lon json).map CareResult.id).Nodup) := by
  constructor
  · rw [List.all_eq_true]
    intro r hr
    obtain ⟨el, hel, hnorm⟩ := mem_of_mem_search hr
    have hid := (normalizeElement_fields hnorm).1
    rw [List.contains_eq_any_beq, List.any_eq_true]
    exact ⟨elementId el, List.mem_map_of_mem elementId hel, by simp [hid]⟩
  · intro h
    have hsub :=
      (filterMap_ids_sublist lat lon ((json.bind OverpassJson.elements).getD [])).nodup h
    have hperm :
        List.Perm
          (((((json.bind OverpassJson.elements).getD []).filterMap
            (normalizeElement lat lon)).mergeSort careLe).map CareResult.id)
          ((((json.bind OverpassJson.elements).getD []).filterMap
            (normalizeElement lat lon)).map CareResult.id) :=
      (List.mergeSort_perm _ careLe).map CareResult.id
    have hnodup := hperm.nodup_iff.mpr hsub
    simp only [searchNearbyCareOSM, List.map_take]
    exact (List.take_sublist 8 _).nodup hnodup

/-- The element repeated in C8's counterexample. -/
def dupElement : OsmElement :=
  { type := "node", id := 1, tags := [("amenity", "hospital")],
    lat := some 0, lon := some 0, center := none }

/-- C8 counterexample: a response that repeats the same raw element twice
makes searchNearbyCareOSM return two entries carrying the identifier
"node-1", so the identifiers are not pairwise distinct as claimed. -/
theorem searchNearbyCareOSM_duplicate_ids :
    ¬ ((searchNearbyCareOSM 0 0
        (some { elements := some [dupElement, dupElement] })).map CareResult.id).Nodup := by
  have hperm :
      List.Perm
        (searchNearbyCareOSM 0 0 (some { elements := some [dupElement, dupElement] }))
        ([dupElement, dupElement].filterMap (normalizeElement 0 0)) := by
    simp only [searchNearbyCareOSM]
    rw [List.take_of_length_le]
    · exact List.mergeSort_perm _ careLe
    · rw [List.length_mergeSort]
      exact le_trans (List.length_filterMap_le _ _) (by norm_num)
  have hnorm : normalizeElement 0 0 dupElement =
      some { id := "node-1", name := "Hospital", address := none, lat := 0, lon := 0,
             distanceMiles := some (toMiles (haversineMeters 0 0 0 0)) } := rfl
  intro h
  have := (hperm.map CareResult.id).nodup_iff.mp h
  rw [List.filterMap_cons, hnorm] at this
  simp [hnorm] at this

/-- C6 counterexample: the haversine formula returns 0 for the two
distinct coordinates (90, 0) and (90, 10) — at the pole the longitude
term is multiplied by cos(90°) = 0 — so "zero only when the two
coordinates are equal" fails as stated. -/
theorem haversine_zero_at_pole :
    haversineMeters 90 0 90 10 = 0 ∧
      (((90 : ℝ), (0 : ℝ)) ≠ ((90 : ℝ), (10 : ℝ))) := by
  constructor
  · simp only [haversineMeters, toRad]
    rw [show ((90 : ℝ) - 90) * Real.pi / 180 = 0 by norm_num,
      show (90 : ℝ) * Real.pi / 180 = Real.pi / 2 by ring]
    simp [Real.cos_pi_div_two]
  · simp only [ne_eq, Prod.mk.injEq, not_and]
    intro _
    norm_num

/-- C6 (amended): haversineMeters is symmetric for all coordinate pairs,
and it is zero exactly when the two coordinates are equal provided both
latitudes lie strictly inside (-90, 90) and the longitudes differ by less
than 360 degrees (outside those ranges the formula can vanish on distinct
points, as the pole counterexample shows). -/
theorem haversineMeters_symm_zero_iff (lat1 lon1 lat2 lon2 : ℝ) :
    haversineMeters lat1 lon1 lat2 lon2 = haversineMeters lat2 lon2 lat1 lon1 ∧
      (|lat1| < 90 → |lat2| < 90 → |lon2 - lon1| < 360 →
        (haversineMeters lat1 lon1 lat2 lon2 = 0 ↔ lat1 = lat2 ∧ lon1 = lon2)) := by
  have hunfold : haversineMeters lat1 lon1 lat2 lon2 =
      2 * 6371000 * Real.arcsin (Real.sqrt
        (Real.sin ((lat2 - lat1) * Real.pi / 180 / 2) ^ 2 +
          Real.cos (lat1 * Real.pi / 180) * Real.cos (lat2 * Real.pi / 180) *
            Real.sin ((lon2 - lon1) * Real.pi / 180 / 2) ^ 2)) := rfl
  constructor
  · simp only [haversineMeters, toRad]
    rw [show (lat1 - lat2) * Real.pi / 180 = -((lat2 - lat1) * Real.pi / 180) by ring,
      show (lon1 - lon2) * Real.pi / 180 = -((lon2 - lon1) * Real.pi / 180) by ring,
      neg_div, neg_div, Real.sin_neg, Real.sin_neg, neg_sq, neg_sq,
      mul_comm (Real.cos (lat2 * Real.pi / 180)) (Real.cos (lat1 * Real.pi / 180))]
  · intro ha hb hlon
    rw [abs_lt] at ha hb hlon
    have hpi := Real.pi_pos
    have hc1 : 0 < Real.cos (lat1 * Real.pi / 180) := by
      apply Real.cos_pos_of_mem_Ioo
      constructor
      · nlinarith [mul_pos hpi (show (0:ℝ) < lat1 + 90 by linarith)]
      · nlinarith [mul_pos hpi (show (0:ℝ) < 90 - lat1 by linarith)]
    have hc2 : 0 < Real.cos (lat2 * Real.pi / 180) := by
      apply Real.cos_pos_of_mem_Ioo
      constructor
      · nlinarith [mul_pos hpi (show (0:ℝ) < lat2 + 90 by linarith)]
      · nlinarith [mul_pos hpi (show (0:ℝ) < 90 - lat2 by linarith)]
    have hA1 : -Real.pi < (lat2 - lat1) * Real.pi / 180 / 2 := by
      nlinarith [mul_pos hpi (show (0:ℝ) < lat2 - lat1 + 360 by linarith)]
    have hA2 : (lat2 - lat1) * Real.pi / 180 / 2 < Real.pi := by
      nlinarith [mul_pos hpi (show (0:ℝ) < 360 - (lat2 - lat1) by linarith)]
    have hB1 : -Real.pi < (lon2 - lon1) * Real.pi / 180 / 2 := by
      nlinarith [mul_pos hpi (show (0:ℝ) < lon2 - lon1 + 360 by linarith)]
    have hB2 : (lon2 - lon1) * Real.pi / 180 / 2 < Real.pi := by
      nlinarith [mul_pos hpi (show (0:ℝ) < 360 - (lon2 - lon1) by linarith)]
    rw [hunfold]
    constructor
    · intro h0
      have harc : Real.arcsin (Real.sqrt
          (Real.sin ((lat2 - lat1) * Real.pi / 180 / 2) ^ 2 +
            Real.cos (lat1 * Real.pi / 180) * Real.cos (lat2 * Real.pi / 180) *
              Real.sin ((lon2 - lon1) * Real.pi / 180 / 2) ^ 2)) = 0 := by
        rcases mul_eq_zero.mp h0 with h | h
        · norm_num at h
        · exact h
      have hS_le := Real.sqrt_eq_zero'.mp (Real.arcsin_eq_zero_iff.mp harc)
      have hsinA : Real.sin ((lat2 - lat1) * Real.pi / 180 / 2) = 0 := by
        have h1 : Real.sin ((lat2 - lat1) * Real.pi / 180 / 2) ^ 2 ≤ 0 := by
          nlinarith [sq_nonneg (Real.sin ((lon2 - lon1) * Real.pi / 180 / 2)), mul_pos hc1 hc2]
        exact sq_eq_zero_iff.mp (le_antisymm h1 (sq_nonneg _))
      have hsinB : Real.sin ((lon2 - lon1) * Real.pi / 180 / 2) = 0 := by
        have h1 : Real.sin ((lon2 - lon1) * Real.pi / 180 / 2) ^ 2 ≤ 0 := by
          nlinarith [sq_nonneg (Real.sin ((lat2 - lat1) * Real.pi / 180 / 2)), mul_pos hc1 hc2,
            sq_nonneg (Real.sin ((lon2 - lon1) * Real.pi / 180 / 2))]
        exact sq_eq_zero_iff.mp (le_antisymm h1 (sq_nonneg _))
      have hA0 := (Real.sin_eq_zero_iff_of_lt_of_lt hA1 hA2).mp hsinA
      have hB0 := (Real.sin_eq_zero_iff_of_lt_of_lt hB1 hB2).mp hsinB
      have hπ : Real.pi ≠ 0 := ne_of_gt hpi
      constructor
      · have h2 : (lat2 - lat1) * Real.pi = 0 := by linarith
        rcases mul_eq_zero.mp h2 with h | h
        · linarith
        · exact absurd h hπ
      · have h2 : (lon2 - lon1) * Real.pi = 0 := by linarith
        rcases mul_eq_zero.mp h2 with h | h
        · linarith
        · exact absurd h hπ
    · rintro ⟨rfl, rfl⟩
      simp [sub_self]

/-- The single raw element of the C7 scenario: a node at (40.01, -75)
tagged amenity=hospital with no name and no address tags. -/
def scenarioElement : OsmElement :=
  { type := "node", id := 1, tags := [("amenity", "hospital")],
    lat := some 40.01, lon := some (-75), center := none }

/-- The distance the pipeline computes in the C7 scenario. -/
noncomputable def scenarioDistance : ℝ := toMiles (haversineMeters 40 (-75) 40.01 (-75))

/-- C7: for origin (40, -75) and the single hospital node at (40.01, -75)
with no name and no address tags, the normalized result is exactly one
entry named by the "Hospital" fallback, with no address, and its distance
lies strictly between 0.68 and 0.70 miles (≈ 0.69 mi). -/
theorem scenario_hospital_result :
    searchNearbyCareOSM 40 (-75) (some { elements := some [scenarioElement] }) =
      [{ id := "node-1", name := "Hospital", address := none, lat := 40.01, lon := -75,
         distanceMiles := some scenarioDistance }] ∧
      0.68 < scenarioDistance ∧ scenarioDistance < 0.70 := by
  have hx0 : (0 : ℝ) ≤ Real.pi / 36000 := by positivity
  have hxpi : Real.pi / 36000 ≤ Real.pi := div_le_self Real.pi_pos.le (by norm_num)
  have hsin_nonneg : 0 ≤ Real.sin (Real.pi / 36000) :=
    Real.sin_nonneg_of_nonneg_of_le_pi hx0 hxpi
  have hs : Real.sqrt (Real.sin (Real.pi / 36000) ^ 2) = Real.sin (Real.pi / 36000) :=
    Real.sqrt_sq hsin_nonneg
  have harc : Real.arcsin (Real.sin (Real.pi / 36000)) = Real.pi / 36000 :=
    Real.arcsin_sin (by nlinarith [Real.pi_pos]) (by nlinarith [Real.pi_pos])
  have hd : scenarioDistance =
      2 * 6371000 * Real.arcsin (Real.sqrt
        (Real.sin (((40.01 : ℝ) - 40) * Real.pi / 180 / 2) ^ 2 +
          Real.cos ((40 : ℝ) * Real.pi / 180) * Real.cos ((40.01 : ℝ) * Real.pi / 180) *
            Real.sin ((((-75) : ℝ) - (-75)) * Real.pi / 180 / 2) ^ 2)) / 1609.344 := rfl
  have hval : scenarioDistance = 2 * 6371000 * (Real.pi / 36000) / 1609.344 := by
    rw [hd]
    rw [show (((-75) : ℝ) - (-75)) * Real.pi / 180 / 2 = 0 by norm_num]
    rw [show ((40.01 : ℝ) - 40) * Real.pi / 180 / 2 = Real.pi / 36000 by
      rw [show ((40.01 : ℝ) - 40) = 1 / 100 by norm_num]; ring]
    rw [Real.sin_zero]
    rw [show ((0 : ℝ)) ^ 2 = 0 by norm_num]
    rw [mul_zero, add_zero]
    rw [hs, harc]
  refine ⟨?_, ?_, ?_⟩
  · rw [show searchNearbyCareOSM 40 (-75) (some { elements := some [scenarioElement] }) =
        ([{ id := "node-1", name := "Hospital", address := none, lat := 40.01, lon := -75,
            distanceMiles := some scenarioDistance }].mergeSort careLe).take 8 from rfl,
      List.mergeSort_singleton]
    rfl
  · rw [hval, show (2 : ℝ) * 6371000 * (Real.pi / 36000) / 1609.344 =
        2 * 6371000 / 36000 / 1609.344 * Real.pi by ring]
    have h1 : (0.68 : ℝ) < 2 * 6371000 / 36000 / 1609.344 * 3.141592 := by norm_num
    exact h1.trans_le (mul_le_mul_of_nonneg_left Real.pi_gt_d6.le (by norm_num))
  · rw [hval, show (2 : ℝ) * 6371000 * (Real.pi / 36000) / 1609.344 =
        2 * 6371000 / 36000 / 1609.344 * Real.pi by ring]
    have h2 : (2 : ℝ) * 6371000 / 36000 / 1609.344 * 3.15 < 0.70 := by norm_num
    exact lt_of_le_of_lt (mul_le_mul_of_nonneg_left Real.pi_lt_d2.le (by norm_num)) h2

end WoundWise
